import Mathlib

/-!
Shallow embedding of `scripts/batch_export_skills.py` (the whole repository):
a batch exporter that builds the external `cratos` tool, lists active skills,
parses the tabular listing, filters rows whose origin column is `"built"`,
and invokes one export command per selected skill, in order, stopping at the
first failure.

String primitives below model the Python `str` operations the script uses
(`strip`, `split` with no separator, `startswith`, `splitlines`) on the
character list underlying a Lean `String`.
-/

/-- Characters stripped by Python `str.strip()` / split on by `str.split()`
(ASCII whitespace: space, tab, newline, carriage return, vertical tab,
form feed). -/
def pyIsSpace (c : Char) : Bool :=
  c == ' ' || c == '\t' || c == '\n' || c == '\r' || c == '\x0b' || c == '\x0c'

/-- Python `s.strip()`: remove leading and trailing whitespace. -/
def pyStrip (s : String) : String :=
  String.mk (((s.data.dropWhile pyIsSpace).reverse.dropWhile pyIsSpace).reverse)

/-- Python `s.split()` with no argument: split on runs of whitespace,
discarding empty tokens (hence also leading/trailing whitespace). -/
def pySplit (s : String) : List String :=
  ((s.data.splitOnP pyIsSpace).map String.mk).filter (fun w => w ≠ "")

/-- Python `s.startswith(pre)`. -/
def pyStartsWith (s pre : String) : Bool :=
  pre.data.isPrefixOf s.data

/-- Python `s.splitlines()`, modelled as splitting on `'\n'` (the script only
ever feeds it captured stdout; a trailing newline yields a final empty line,
which the parser skips, so the difference from CPython is unobservable
here). -/
def pySplitlines (s : String) : List String :=
  (s.data.splitOnP (fun c => c == '\n')).map String.mk

/-- A parsed row of the skill listing.  The script binds `name = parts[1]`
and `origin = parts[3]` for each data row (`parts[0]` is the icon,
`parts[2]` the category; neither is bound). -/
structure SkillRecord where
  name : String
  origin : String
deriving DecidableEq

/-- One iteration of the script's parsing loop, as a record producer:
strip the line; skip it if empty, if it starts with `"Cratos Skills"`, or if
it starts with `"-----"`; split it on whitespace; skip it if fewer than 4
tokens result; otherwise build the record from tokens 1 and 3. -/
def parseLine (raw : String) : Option SkillRecord :=
  let line := pyStrip raw
  if line = "" then none
  else if pyStartsWith line "Cratos Skills" then none
  else if pyStartsWith line "-----" then none
  else
    let parts := pySplit line
    if parts.length < 4 then none
    else some { name := parts.getD 1 "", origin := parts.getD 3 "" }

/-- The records produced by the parsing loop over a list of lines, in
source order. -/
def parseLines (ls : List String) : List SkillRecord :=
  ls.filterMap parseLine

/-- The records produced from a whole listing text. -/
def parseListing (text : String) : List SkillRecord :=
  parseLines (pySplitlines text)

/-- The origin filter: keep exactly the records whose origin is the literal
`"built"` (the script's `if origin == "built"`). -/
def originFilter (rs : List SkillRecord) : List SkillRecord :=
  rs.filter (fun r => r.origin == "built")

/-- One iteration of the script's loop acting on the mutable
`skills_to_export` accumulator: a well-formed row with origin `"built"`
appends its name, every other line leaves the accumulator unchanged. -/
def loopStep (acc : List String) (line : String) : List String :=
  match parseLine line with
  | some r => if r.origin == "built" then acc ++ [r.name] else acc
  | none => acc

/-- The export batch `skills_to_export` computed by the script from the
listing text: fold the loop body over the lines starting from the empty
list. -/
def skillsToExport (text : String) : List String :=
  (pySplitlines text).foldl loopStep []

/-- A well-formed data row in the sense of the parsing loop's guards: the
trimmed line is non-empty, does not start with the header prefix
`"Cratos Skills"`, does not start with the separator prefix `"-----"`, and
splits into at least 4 whitespace-separated tokens. -/
def isWellFormedRow (raw : String) : Bool :=
  let line := pyStrip raw
  if line = "" then false
  else if pyStartsWith line "Cratos Skills" then false
  else if pyStartsWith line "-----" then false
  else decide (4 ≤ (pySplit line).length)

/-- The record a well-formed row materializes: tokens 1 and 3 of the
trimmed, whitespace-split line (junk default off the well-formed domain). -/
def rowRecord (raw : String) : SkillRecord :=
  { name := (pySplit (pyStrip raw)).getD 1 ""
    origin := (pySplit (pyStrip raw)).getD 3 "" }

/-- Argument vector of the build invocation (`subprocess.run` line 10). -/
def buildCmd : List String :=
  ["uv", "run", "cargo", "build"]

/-- Fixed runner part shared by the list and export invocations: the script
always reaches the tool through `uv run cargo run --bin cratos --`, so the
tool-level arguments are the argv elements after this prefix. -/
def runnerPrefix : List String :=
  ["uv", "run", "cargo", "run", "--bin", "cratos", "--"]

/-- Argument vector of the list invocation (line 14). -/
def listCmd : List String :=
  ["uv", "run", "cargo", "run", "--bin", "cratos", "--", "skill", "list", "--active"]

/-- Argument vector of the export invocation for one skill (line 51). -/
def exportCmd (skill : String) : List String :=
  ["uv", "run", "cargo", "run", "--bin", "cratos", "--", "skill", "export", "--markdown", skill]

/-- Behaviour of the external world for one run: the exit status the build
command returns, the captured stdout/stderr/exit status of the list
command, and the exit status of the i-th export invocation (0-indexed). -/
structure Env where
  buildExit : Int
  listStdout : String
  listStderr : String
  listExit : Int
  exportExit : Nat → Int

/-- How one run of `main` ends.  `returnedNormally` is `main` reaching a
`return` or falling off the end (the interpreter then exits with status 0);
`fatalChild argv code` is an uncaught `subprocess.CalledProcessError` from
`subprocess.run(argv, check=True)` whose child exited with `code`. -/
inductive RunOutcome where
  | returnedNormally
  | fatalChild (argv : List String) (exitCode : Int)
deriving DecidableEq

/-- Observable trace of one run: lines printed to stdout, the computed
export batch (`skills_to_export`; empty when never populated), argument
vectors of the export invocations actually issued, in order, and the
outcome. -/
structure RunTrace where
  printed : List String
  selected : List String
  exports : List (List String)
  outcome : RunOutcome
deriving DecidableEq

/-- Result of the export loop alone: its printed lines, the export
invocations issued, and how it ends. -/
structure ExportRun where
  printed : List String
  exports : List (List String)
  outcome : RunOutcome
deriving DecidableEq

/-- The script's export loop (lines 49-54): for each skill in order, print
the progress line, issue the export command in check mode; a non-zero exit
raises immediately, otherwise continue; after the last skill print the
completion line. -/
def runExports (ex : Nat → Int) (idx : Nat) : List String → ExportRun
  | [] => { printed := ["Batch export complete."], exports := [], outcome := .returnedNormally }
  | s :: rest =>
    if ex idx = 0 then
      let r := runExports ex (idx + 1) rest
      { printed := ("Exporting " ++ s ++ "...") :: r.printed
        exports := exportCmd s :: r.exports
        outcome := r.outcome }
    else
      { printed := ["Exporting " ++ s ++ "..."]
        exports := [exportCmd s]
        outcome := .fatalChild (exportCmd s) (ex idx) }

/-- One run of `main` against an environment: build in check mode; list in
capturing mode; on non-zero list status print the error banner and the
captured stderr and return; otherwise parse and filter the stdout into the
export batch, print its size, and run the export loop. -/
def runMain (env : Env) : RunTrace :=
  if env.buildExit = 0 then
    if env.listExit = 0 then
      let skills := skillsToExport env.listStdout
      let r := runExports env.exportExit 0 skills
      { printed := ["Building Cratos...", "Fetching active skills...",
          "Found " ++ toString skills.length ++ " builtin skills to export."] ++ r.printed
        selected := skills
        exports := r.exports
        outcome := r.outcome }
    else
      { printed := ["Building Cratos...", "Fetching active skills...",
          "Error listing skills:", env.listStderr]
        selected := []
        exports := []
        outcome := .returnedNormally }
  else
    { printed := ["Building Cratos..."]
      selected := []
      exports := []
      outcome := .fatalChild buildCmd env.buildExit }

/-- Exit status of the orchestrating Python process, from the outcome.
Modelled from CPython runtime semantics: a script whose `main` returns
exits with status 0; an uncaught exception (here `CalledProcessError`,
raised by `check=True` on a non-zero child) makes the interpreter print a
traceback and exit with status 1 — not with the child's status. -/
def processExitStatus (t : RunTrace) : Int :=
  match t.outcome with
  | .returnedNormally => 0
  | .fatalChild _ _ => 1

/-- The five-line demonstration listing of the end-to-end scenario. -/
def demoListing : String :=
  "Cratos Skills\n-----\n* alpha core built\n* beta core custom\n* gamma tool built"

/-- Environment in which every child succeeds and the list command prints
the demonstration listing. -/
def envDemo : Env :=
  { buildExit := 0, listStdout := demoListing, listStderr := "",
    listExit := 0, exportExit := fun _ => 0 }

/-- Environment in which the list command fails with status 5. -/
def envListFail : Env :=
  { buildExit := 0, listStdout := "* alpha core built", listStderr := "listing failed",
    listExit := 5, exportExit := fun _ => 0 }

/-- Environment in which the build command fails with status 101. -/
def envBuildFail : Env :=
  { buildExit := 101, listStdout := "", listStderr := "",
    listExit := 0, exportExit := fun _ => 0 }

/-- Environment with two selected skills in which the first export succeeds
and the second fails with status 3. -/
def envExportFail : Env :=
  { buildExit := 0, listStdout := "* alpha core built\n* beta tool built",
    listStderr := "", listExit := 0,
    exportExit := fun i => if i = 0 then 0 else 3 }

/-- The trace of a run whose build child exits with `code` (non-zero): only
the first progress line was printed, nothing was selected or exported, and
the run ends in the build child's fault. -/
def buildFailTrace (code : Int) : RunTrace :=
  { printed := ["Building Cratos..."], selected := [], exports := [],
    outcome := RunOutcome.fatalChild buildCmd code }

/-- The parsing loop body produces a record exactly on well-formed rows,
and then it is the positional record of the row. -/
theorem parseLine_eq (raw : String) :
    parseLine raw = if isWellFormedRow raw then some (rowRecord raw) else none := by
  unfold parseLine isWellFormedRow rowRecord
  by_cases h1 : pyStrip raw = ""
  · simp [h1]
  · by_cases h2 : pyStartsWith (pyStrip raw) "Cratos Skills" = true
    · simp [h1, h2]
    · by_cases h3 : pyStartsWith (pyStrip raw) "-----" = true
      · simp [h1, h2, h3]
      · by_cases h4 : (pySplit (pyStrip raw)).length < 4
        · simp [h1, h2, h3, h4, Nat.not_le.mpr h4]
        · simp [h1, h2, h3, h4, Nat.not_lt.mp h4]

/-- The record sequence of a line list is the positional record of each
well-formed row, in source order. -/
theorem parseLines_eq (ls : List String) :
    parseLines ls = (ls.filter isWellFormedRow).map rowRecord := by
  induction ls with
  | nil => rfl
  | cons l ls ih =>
    simp only [parseLines, List.filterMap_cons, List.filter_cons] at ih ⊢
    rw [parseLine_eq l]
    by_cases h : isWellFormedRow l = true
    · simp [h, ih]
    · simp only [Bool.not_eq_true] at h
      simp [h, ih]

/-- A well-formed row has at least 4 tokens. -/
theorem isWellFormedRow_length (line : String) (h : isWellFormedRow line = true) :
    4 ≤ (pySplit (pyStrip line)).length := by
  by_cases h1 : pyStrip line = ""
  · simp [isWellFormedRow, h1] at h
  · by_cases h2 : pyStartsWith (pyStrip line) "Cratos Skills" = true
    · simp [isWellFormedRow, h1, h2] at h
    · by_cases h3 : pyStartsWith (pyStrip line) "-----" = true
      · simp [isWellFormedRow, h1, h2, h3] at h
      · simpa [isWellFormedRow, h1, h2, h3] using h

/-- A line producing no record leaves the accumulator unchanged. -/
theorem loopStep_none (acc : List String) (line : String) (h : parseLine line = none) :
    loopStep acc line = acc := by
  simp [loopStep, h]

/-- A line producing a record with origin `"built"` appends its name. -/
theorem loopStep_built (acc : List String) (line : String) (r : SkillRecord)
    (h : parseLine line = some r) (hb : (r.origin == "built") = true) :
    loopStep acc line = acc ++ [r.name] := by
  simp [loopStep, h, hb]

/-- A line producing a record with another origin leaves the accumulator
unchanged. -/
theorem loopStep_other (acc : List String) (line : String) (r : SkillRecord)
    (h : parseLine line = some r) (hb : (r.origin == "built") = false) :
    loopStep acc line = acc := by
  simp [loopStep, h, hb]

/-- Folding the loop body over the lines from any starting accumulator
appends exactly the names of the built-origin records, in source order:
the single-pass loop of the script agrees with parse-then-filter-then-map,
and prior accumulator contents only sit in front. -/
theorem foldl_loopStep (ls : List String) (acc : List String) :
    ls.foldl loopStep acc = acc ++ (originFilter (parseLines ls)).map SkillRecord.name := by
  induction ls generalizing acc with
  | nil => simp [parseLines, originFilter]
  | cons l ls ih =>
    rw [List.foldl_cons]
    cases h : parseLine l with
    | none =>
      rw [loopStep_none acc l h, ih acc]
      simp [parseLines, List.filterMap_cons, h]
    | some r =>
      cases hb : (r.origin == "built") with
      | true =>
        rw [loopStep_built acc l r h hb, ih (acc ++ [r.name])]
        simp [parseLines, List.filterMap_cons, h, originFilter, List.filter_cons, hb]
      | false =>
        rw [loopStep_other acc l r h hb, ih acc]
        simp [parseLines, List.filterMap_cons, h, originFilter, List.filter_cons, hb]

/-- The export loop started at index `idx`, when the first `j` invocations
succeed and the `j`-th (0-indexed) fails: it issues exactly the commands
for the first `j + 1` skills, in order, and ends in the failing child's
fault carrying that child's exit status. -/
theorem runExports_fail (ex : Nat → Int) (skills : List String) (idx j : Nat)
    (hj : j < skills.length)
    (hsucc : ∀ i, i < j → ex (idx + i) = 0)
    (hfail : ex (idx + j) ≠ 0) :
    (runExports ex idx skills).exports = (skills.take (j + 1)).map exportCmd ∧
    (runExports ex idx skills).outcome =
      RunOutcome.fatalChild (exportCmd (skills.getD j "")) (ex (idx + j)) := by
  induction skills generalizing idx j with
  | nil => simp at hj
  | cons s rest ih =>
    cases j with
    | zero =>
      have h0 : ex idx ≠ 0 := by simpa using hfail
      simp [runExports, h0]
    | succ j' =>
      have h0 : ex idx = 0 := by simpa using hsucc 0 (Nat.succ_pos _)
      have hsucc' : ∀ i, i < j' → ex (idx + 1 + i) = 0 := by
        intro i hi
        have e : idx + 1 + i = idx + (i + 1) := by omega
        rw [e]
        exact hsucc (i + 1) (by omega)
      have hfail' : ex (idx + 1 + j') ≠ 0 := by
        have e : idx + 1 + j' = idx + (j' + 1) := by omega
        rw [e]
        exact hfail
      have hr := ih (idx + 1) j' (by simp at hj; omega) hsucc' hfail'
      have e : idx + (j' + 1) = idx + 1 + j' := by omega
      rw [e]
      constructor
      · simp [runExports, h0, hr.1]
      · simp [runExports, h0, hr.2]

/-- C1: for any listing text with N well-formed data rows (trimmed,
non-empty, not starting with the header prefix, not starting with the dash
separator, at least 4 whitespace-separated tokens) and any number of
malformed, header, or separator lines interspersed, the parsing pass
produces exactly N records — one per well-formed row — in source order. -/
theorem parser_exact_records (text : String) :
    parseListing text = ((pySplitlines text).filter isWellFormedRow).map rowRecord ∧
    (parseListing text).length = ((pySplitlines text).filter isWellFormedRow).length := by
  have h := parseLines_eq (pySplitlines text)
  constructor
  · exact h
  · show (parseLines (pySplitlines text)).length = _
    rw [h, List.length_map]

/-- C2: the origin filter returns an ordered subsequence of its input in
which every record's origin is exactly the literal `"built"`, and no
deduplication happens — a record with origin `"built"` occurs in the
output precisely as often as in the input. -/
theorem origin_filter_spec (rs : List SkillRecord) (r : SkillRecord) :
    (originFilter rs).Sublist rs ∧
    (∀ x ∈ originFilter rs, x.origin = "built") ∧
    (r.origin = "built" → (originFilter rs).count r = rs.count r) := by
  refine ⟨List.filter_sublist rs, ?_, ?_⟩
  · intro x hx
    have hx2 := (List.mem_filter.mp hx).2
    simpa using hx2
  · intro h
    exact List.count_filter (by simp [h])

/-- C3: when the k-th (1-indexed) export invocation fails and all earlier
ones succeeded, exactly k export invocations occur — the commands for the
first k selected skills, in order, with no skill after position k ever
attempted and no compensating invocation issued for the earlier ones —
and the run ends in the failing child's fault. -/
theorem export_failure_stops_batch (env : Env) (k : Nat)
    (hb : env.buildExit = 0) (hl : env.listExit = 0)
    (hk1 : 1 ≤ k) (hk2 : k ≤ (skillsToExport env.listStdout).length)
    (hsucc : ∀ i, i < k - 1 → env.exportExit i = 0)
    (hfail : env.exportExit (k - 1) ≠ 0) :
    (runMain env).exports.length = k ∧
    (runMain env).exports = ((skillsToExport env.listStdout).take k).map exportCmd ∧
    (runMain env).outcome = RunOutcome.fatalChild
      (exportCmd ((skillsToExport env.listStdout).getD (k - 1) ""))
      (env.exportExit (k - 1)) := by
  have hj : k - 1 < (skillsToExport env.listStdout).length := by omega
  have hsucc0 : ∀ i, i < k - 1 → env.exportExit (0 + i) = 0 := by
    intro i hi
    simpa using hsucc i hi
  have hfail0 : env.exportExit (0 + (k - 1)) ≠ 0 := by simpa using hfail
  have hr := runExports_fail env.exportExit (skillsToExport env.listStdout) 0 (k - 1)
    hj hsucc0 hfail0
  simp only [Nat.zero_add] at hr
  have hek : k - 1 + 1 = k := by omega
  rw [hek] at hr
  have hmain :
      (runMain env).exports = (runExports env.exportExit 0 (skillsToExport env.listStdout)).exports ∧
      (runMain env).outcome = (runExports env.exportExit 0 (skillsToExport env.listStdout)).outcome := by
    constructor <;> simp [runMain, hb, hl]
  refine ⟨?_, ?_, ?_⟩
  · rw [hmain.1, hr.1, List.length_map, List.length_take]
    omega
  · rw [hmain.1, hr.1]
  · rw [hmain.2, hr.2]

/-- C3 witness: two selected skills, the first export succeeds and the
second fails, so exactly 2 invocations occur and the run ends in the
second child's fault. -/
theorem export_failure_stops_batch_witness :
    envExportFail.buildExit = 0 ∧ envExportFail.listExit = 0 ∧
    1 ≤ 2 ∧ 2 ≤ (skillsToExport envExportFail.listStdout).length ∧
    (∀ i, i < 2 - 1 → envExportFail.exportExit i = 0) ∧
    envExportFail.exportExit (2 - 1) ≠ 0 ∧
    ((runMain envExportFail).exports.length = 2 ∧
     (runMain envExportFail).exports =
       ((skillsToExport envExportFail.listStdout).take 2).map exportCmd ∧
     (runMain envExportFail).outcome = RunOutcome.fatalChild
       (exportCmd ((skillsToExport envExportFail.listStdout).getD (2 - 1) ""))
       (envExportFail.exportExit (2 - 1))) :=
  ⟨rfl, rfl, by omega, by decide,
   (fun i hi => by interval_cases i ; rfl),
   by decide,
   export_failure_stops_batch envExportFail 2 rfl rfl (by omega) (by decide)
     (fun i hi => by interval_cases i ; rfl) (by decide)⟩

/-- C4: when the list command exits non-zero, the run prints the error
banner followed by the captured stderr, selects no records, issues zero
export invocations, and `main` returns normally — the process exits with
status 0 rather than signalling failure. -/
theorem list_failure_prints_and_returns (env : Env)
    (hb : env.buildExit = 0) (hl : env.listExit ≠ 0) :
    (runMain env).printed = ["Building Cratos...", "Fetching active skills...",
      "Error listing skills:", env.listStderr] ∧
    (runMain env).selected = [] ∧
    (runMain env).exports = [] ∧
    (runMain env).outcome = RunOutcome.returnedNormally ∧
    processExitStatus (runMain env) = 0 := by
  refine ⟨?_, ?_, ?_, ?_, ?_⟩ <;> simp [runMain, hb, hl, processExitStatus]

/-- C4 witness: a concrete run whose list command exits 5 with stderr
`"listing failed"`. -/
theorem list_failure_prints_and_returns_witness :
    envListFail.buildExit = 0 ∧ envListFail.listExit ≠ 0 ∧
    ((runMain envListFail).printed = ["Building Cratos...", "Fetching active skills...",
       "Error listing skills:", envListFail.listStderr] ∧
     (runMain envListFail).selected = [] ∧
     (runMain envListFail).exports = [] ∧
     (runMain envListFail).outcome = RunOutcome.returnedNormally ∧
     processExitStatus (runMain envListFail) = 0) :=
  ⟨rfl, by decide, list_failure_prints_and_returns envListFail rfl (by decide)⟩

/-- C5 (amended): a non-zero exit from a check-mode child — the build step
or any export step — raises `CalledProcessError` inside `subprocess.run`,
which nothing catches: the run ends immediately in that child's fault, no
retry and no later step occurs, and the interpreter terminates with exit
status 1 (CPython's uncaught-exception status) rather than with the
underlying tool's own exit status. -/
theorem strict_failure_aborts (env : Env) (j : Nat) :
    (env.buildExit ≠ 0 →
      runMain env = buildFailTrace env.buildExit ∧
      processExitStatus (runMain env) = 1) ∧
    (env.buildExit = 0 → env.listExit = 0 →
      j < (skillsToExport env.listStdout).length →
      (∀ i, i < j → env.exportExit i = 0) →
      env.exportExit j ≠ 0 →
      (runMain env).exports.length = j + 1 ∧
      (runMain env).outcome = RunOutcome.fatalChild
        (exportCmd ((skillsToExport env.listStdout).getD j "")) (env.exportExit j) ∧
      processExitStatus (runMain env) = 1) := by
  constructor
  · intro hb
    have hm : runMain env = buildFailTrace env.buildExit := by
      simp [runMain, buildFailTrace, hb]
    refine ⟨hm, ?_⟩
    rw [hm]
    rfl
  · intro hb hl hj hsucc hfail
    have hsucc0 : ∀ i, i < j → env.exportExit (0 + i) = 0 := by
      intro i hi
      simpa using hsucc i hi
    have hfail0 : env.exportExit (0 + j) ≠ 0 := by simpa using hfail
    have hr := runExports_fail env.exportExit (skillsToExport env.listStdout) 0 j
      hj hsucc0 hfail0
    simp only [Nat.zero_add] at hr
    have hmain :
        (runMain env).exports =
          (runExports env.exportExit 0 (skillsToExport env.listStdout)).exports ∧
        (runMain env).outcome =
          (runExports env.exportExit 0 (skillsToExport env.listStdout)).outcome := by
      constructor <;> simp [runMain, hb, hl]
    refine ⟨?_, ?_, ?_⟩
    · rw [hmain.1, hr.1, List.length_map, List.length_take]
      omega
    · rw [hmain.2, hr.2]
    · rw [processExitStatus, hmain.2, hr.2]

/-- C5 counterexample: with the build child exiting 101, the orchestrating
process exits with status 1, not with the tool's status 101 — the claim
that the process "terminates with the underlying tool's exit status" fails
on the code, which lets `CalledProcessError` escape uncaught. -/
theorem strict_failure_exit_status_cex :
    envBuildFail.buildExit ≠ 0 ∧
    processExitStatus (runMain envBuildFail) ≠ envBuildFail.buildExit := by
  decide

/-- C5 witness: the build-failure implication applied to the environment
whose build child exits 101. -/
theorem strict_failure_aborts_witness :
    envBuildFail.buildExit ≠ 0 ∧
    (runMain envBuildFail = buildFailTrace envBuildFail.buildExit ∧
     processExitStatus (runMain envBuildFail) = 1) :=
  ⟨by decide, (strict_failure_aborts envBuildFail 0).1 (by decide)⟩

/-- C6: any line whose trimmed form is non-empty, does not start with
`"Cratos Skills"`, does not start with `"-----"`, and splits into at least
4 whitespace-separated tokens yields the record with name = token 1 and
origin = token 3; token 0 (the icon), token 2 (the category), and all
tokens beyond the fourth are ignored. -/
theorem wellformed_row_positional_mapping (line : String)
    (h1 : pyStrip line ≠ "")
    (h2 : pyStartsWith (pyStrip line) "Cratos Skills" = false)
    (h3 : pyStartsWith (pyStrip line) "-----" = false)
    (h4 : 4 ≤ (pySplit (pyStrip line)).length) :
    parseLine line = some { name := (pySplit (pyStrip line)).getD 1 "",
                            origin := (pySplit (pyStrip line)).getD 3 "" } := by
  have h5 : ¬((pySplit (pyStrip line)).length < 4) := by omega
  unfold parseLine
  simp [h1, h2, h3, h5]

/-- C6 witness: a five-token row, whose fifth token is ignored. -/
theorem wellformed_row_positional_mapping_witness :
    pyStrip "* alpha core built extra" ≠ "" ∧
    pyStartsWith (pyStrip "* alpha core built extra") "Cratos Skills" = false ∧
    pyStartsWith (pyStrip "* alpha core built extra") "-----" = false ∧
    4 ≤ (pySplit (pyStrip "* alpha core built extra")).length ∧
    parseLine "* alpha core built extra" =
      some { name := (pySplit (pyStrip "* alpha core built extra")).getD 1 "",
             origin := (pySplit (pyStrip "* alpha core built extra")).getD 3 "" } :=
  ⟨by decide, by decide, by decide, by decide,
   wellformed_row_positional_mapping "* alpha core built extra"
     (by decide) (by decide) (by decide) (by decide)⟩

/-- C7: a record is materialized exactly from the well-formed rows — in
particular only from lines with at least four whitespace-separated tokens —
and a line failing any guard produces no record and leaves the accumulated
batch untouched; the loop body's only observable effect is the
accumulator, so the drop is silent (no warning or count exists to emit). -/
theorem record_requires_four_tokens (line : String) (acc : List String) :
    ((parseLine line).isSome = isWellFormedRow line) ∧
    ((parseLine line).isSome = true → 4 ≤ (pySplit (pyStrip line)).length) ∧
    (isWellFormedRow line = false → parseLine line = none ∧ loopStep acc line = acc) := by
  have hpe := parseLine_eq line
  refine ⟨?_, ?_, ?_⟩
  · rw [hpe]
    by_cases h : isWellFormedRow line = true
    · simp [h]
    · simp only [Bool.not_eq_true] at h
      simp [h]
  · intro hs
    apply isWellFormedRow_length
    rw [hpe] at hs
    by_cases h : isWellFormedRow line = true
    · exact h
    · simp only [Bool.not_eq_true] at h
      rw [h] at hs
      simp at hs
  · intro h
    have hn : parseLine line = none := by
      rw [hpe, h]
      simp
    exact ⟨hn, loopStep_none acc line hn⟩

/-- C8: on the five-line demonstration listing the selected batch is
exactly `["alpha", "gamma"]` in that order, exactly two export invocations
occur, and each invocation's argument vector is the fixed runner part
followed by exactly `["skill", "export", "--markdown", <name>]` (the
spec's logical argument vector for the export step). -/
theorem demo_batch_and_exports :
    skillsToExport demoListing = ["alpha", "gamma"] ∧
    (runMain envDemo).selected = ["alpha", "gamma"] ∧
    (runMain envDemo).exports.length = 2 ∧
    (runMain envDemo).exports =
      [runnerPrefix ++ ["skill", "export", "--markdown", "alpha"],
       runnerPrefix ++ ["skill", "export", "--markdown", "gamma"]] ∧
    (runMain envDemo).outcome = RunOutcome.returnedNormally := by
  decide

/-- C9: the parse-and-filter pass is a pure function of the listing text —
recomputing it yields the same records and the same batch — and the only
state the loop touches, the `skills_to_export` accumulator, starts empty
and carries nothing between runs: folding the loop body from any prior
accumulator contents appends exactly the batch of the text. -/
theorem parsing_deterministic_stateless (text : String) (acc : List String) :
    skillsToExport text = (originFilter (parseListing text)).map SkillRecord.name ∧
    (pySplitlines text).foldl loopStep acc = acc ++ skillsToExport text := by
  have hs : skillsToExport text = (originFilter (parseListing text)).map SkillRecord.name := by
    have h0 := foldl_loopStep (pySplitlines text) []
    simpa [skillsToExport, parseListing] using h0
  refine ⟨hs, ?_⟩
  rw [hs]
  simpa [parseListing] using foldl_loopStep (pySplitlines text) acc

/-- C10: a line whose trimmed form starts with `"-----"` is always
skipped — it yields no record and contributes nothing to the batch — even
when it has four or more tokens whose fourth is `"built"`. -/
theorem dash_prefix_line_skipped (line : String) (acc : List String)
    (h : pyStartsWith (pyStrip line) "-----" = true) :
    parseLine line = none ∧ loopStep acc line = acc := by
  have hne : pyStrip line ≠ "" := by
    intro he
    rw [he] at h
    exact absurd h (by decide)
  have hCS : pyStartsWith (pyStrip line) "Cratos Skills" = false := by
    cases hcs : pyStartsWith (pyStrip line) "Cratos Skills"
    · rfl
    · exfalso
      have hdash : ("-----".data) <+: (pyStrip line).data :=
        List.isPrefixOf_iff_prefix.mp h
      have hhead : ("Cratos Skills".data) <+: (pyStrip line).data :=
        List.isPrefixOf_iff_prefix.mp hcs
      obtain ⟨t, ht⟩ := hdash
      obtain ⟨u, hu⟩ := hhead
      rw [← ht] at hu
      have hd : "-----".data = '-' :: "----".data := by decide
      have hc : "Cratos Skills".data = 'C' :: "ratos Skills".data := by decide
      rw [hd, hc] at hu
      simp only [List.cons_append, List.cons.injEq] at hu
      exact absurd hu.1 (by decide)
  have hnone : parseLine line = none := by
    unfold parseLine
    simp [hne, hCS, h]
  exact ⟨hnone, loopStep_none acc line hnone⟩

/-- C10 witness: a dash-prefixed line with four tokens whose fourth token
is `"built"` still produces no record and leaves the batch unchanged. -/
theorem dash_prefix_line_skipped_witness :
    pyStartsWith (pyStrip "----- alpha core built") "-----" = true ∧
    (parseLine "----- alpha core built" = none ∧
     loopStep ["x"] "----- alpha core built" = ["x"]) :=
  ⟨by decide, dash_prefix_line_skipped "----- alpha core built" ["x"] (by decide)⟩

example : pySplit "  * alpha   core built  " = ["*", "alpha", "core", "built"] := by decide
example : pyStrip "  x y \n" = "x y" := by decide
example : parseLine "* alpha core built" = some { name := "alpha", origin := "built" } := by decide
example : parseLine "-----" = none := by decide
example : parseLine "----- a b built" = none := by decide
example : parseLine "* delta core" = none := by decide
example : parseLine "Cratos Skills        Active" = none := by decide
example :
    parseListing "Cratos Skills\n-----\n* alpha core built\n* beta core custom" =
      [{ name := "alpha", origin := "built" }, { name := "beta", origin := "custom" }] := by decide
example :
    skillsToExport "Cratos Skills\n-----\n* alpha core built\n* beta core custom\n* gamma tool built" =
      ["alpha", "gamma"] := by decide
example :
    (runMain { buildExit := 0, listStdout := "* alpha core built", listStderr := "",
               listExit := 0, exportExit := fun _ => 0 }).exports = [exportCmd "alpha"] := by decide
example :
    (runMain { buildExit := 0, listStdout := "* alpha core built", listStderr := "boom",
               listExit := 2, exportExit := fun _ => 0 }).printed =
      ["Building Cratos...", "Fetching active skills...", "Error listing skills:", "boom"] := by decide
example :
    (runMain { buildExit := 7, listStdout := "", listStderr := "", listExit := 0,
               exportExit := fun _ => 0 }).outcome = RunOutcome.fatalChild buildCmd 7 := by decide
